import Mathlib

/-!
Verification development for the receipt-scanner pipeline (`scan.py`).

The Python program is shallowly embedded: numeric field values are modelled
as rationals, the backend response object as an explicit structure, Python
dictionaries (for the CSV flattening step) as association lists, retries as a
fuelled loop that records the sleeps it performs, and the filesystem as an
explicit description of the input path.
-/

set_option autoImplicit false

namespace ReceiptScan

/-- Maximum number of attempts for a failed API call (`MAX_RETRIES = 3`). -/
def MAX_RETRIES : ℕ := 3

/-- One element of the backend item list: `item.value` holds the optional
`Description`, `TotalPrice` and `Quantity` sub-fields. -/
structure RawItem where
  description : Option String
  totalPrice : Option ℚ
  quantity : Option ℚ
deriving DecidableEq

/-- One backend document: `doc.fields`, each known field optionally present as
a (value, confidence) pair, plus the item list. -/
structure RawDocument where
  vendorName : Option (String × ℚ)
  transactionDate : Option (String × ℚ)
  transactionTime : Option (String × ℚ)
  subtotal : Option (ℚ × ℚ)
  totalTax : Option (ℚ × ℚ)
  tip : Option (ℚ × ℚ)
  total : Option (ℚ × ℚ)
  items : Option (List RawItem)
deriving DecidableEq

/-- The raw result object of a successful backend call: a list of documents
plus the full recognized text (`result.content`). -/
structure RawResult where
  documents : List RawDocument
  content : String
deriving DecidableEq

/-- A normalized line item: description (optional), quantity (default 1.0),
price (default 0.0). -/
structure LineItem where
  description : Option String
  quantity : ℚ
  price : ℚ
deriving DecidableEq

/-- Confidence attached to a field value: a numeric backend confidence, or the
string sentinel `"Heuristic-Guess"` used by the vendor-name fallback. -/
inductive Conf where
  | num (q : ℚ)
  | heuristic
deriving DecidableEq

/-- The normalized receipt record assembled by `extract_and_validate_receipt`
(the `source_file` tag is added later by the orchestrator). `vendor_conf` is
the local confidence variable of the normalizer; the code computes it but does
not serialize it. -/
structure NormRecord where
  items : List LineItem
  vendor_name : Option String
  vendor_conf : Conf
  date : Option String
  time : Option String
  subtotal : Option ℚ
  tax : Option ℚ
  tip : Option ℚ
  discount : ℚ
  total : Option ℚ
  validation_calculated_total : ℚ
  validation_passed : Bool
deriving DecidableEq

/-- Python truthiness of an optional string: `not s` holds for `None` and for
the empty string. -/
def pyFalsyStr : Option String → Bool
  | none => true
  | some s => s == ""

/-- Python `str(v) if v else None` applied to an optional string value. -/
def pyStrOrNone : Option String → Option String
  | none => none
  | some s => if s = "" then none else some s

/-- Round half to even (Python banker's rounding) on a rational. -/
def roundHalfEven (x : ℚ) : ℤ :=
  let f := ⌊x⌋
  let r := x - (f : ℚ)
  if r < 1/2 then f
  else if 1/2 < r then f + 1
  else if f % 2 = 0 then f else f + 1

/-- Python `round(x, 2)` modelled on rationals. -/
def round2 (x : ℚ) : ℚ := (roundHalfEven (x * 100) : ℚ) / 100

/-- Python `s.lower()` (ASCII case folding, as all inputs here are ASCII). -/
def sLower (s : String) : String := String.mk (s.data.map Char.toLower)

/-- Python `s.upper()`. -/
def sUpper (s : String) : String := String.mk (s.data.map Char.toUpper)

/-- Python `s.strip()`: drop whitespace from both ends. -/
def sStrip (s : String) : String :=
  String.mk (((s.data.dropWhile Char.isWhitespace).reverse.dropWhile
    Char.isWhitespace).reverse)

/-- Python `s.split('\n')` on the character list: separators delimit fields,
empty fields are kept. -/
def splitNl : List Char → List (List Char)
  | [] => [[]]
  | c :: cs =>
    if c = '\n' then [] :: splitNl cs
    else
      match splitNl cs with
      | [] => [[c]]
      | h :: t => (c :: h) :: t

/-- The junk words rejected by the vendor-name fallback heuristic. -/
def JUNK_WORDS : List String :=
  ["RECEIPT", "INVOICE", "BILL", "TAX INVOICE", "CASH MEMO", "THANK YOU"]

/-- The candidate lines of the fallback heuristic: strip every line of the
recognized text, keep the non-blank ones, take the first 5. -/
def possibleLines (content : String) : List String :=
  ((((splitNl content.data).map (fun l => sStrip (String.mk l)))).filter
    (· != "")).take 5

/-- A candidate line survives when its uppercasing is not a junk word and its
length exceeds 2. -/
def vendorLineOk (l : String) : Bool :=
  !(JUNK_WORDS.contains (sUpper l)) && decide (2 < l.data.length)

/-- The vendor-name fallback: the first candidate line that survives
(`for line in possible_lines: if ...: break`). -/
def vendorFallback (content : String) : Option String :=
  (possibleLines content).find? vendorLineOk

/-- Whether the first character list starts the second one. -/
def charsStartWith : List Char → List Char → Bool
  | [], _ => true
  | _ :: _, [] => false
  | a :: as, b :: bs => a == b && charsStartWith as bs

/-- Whether the first character list occurs contiguously in the second
(Python `needle in hay` on strings). -/
def charsContain (needle : List Char) : List Char → Bool
  | [] => needle.isEmpty
  | b :: bs => charsStartWith needle (b :: bs) || charsContain needle bs

/-- Keyword test of the discount heuristic: `any(k in desc.lower() for k in
["discount", "coupon", "saving"])`. -/
def discountKeywordHit (desc : String) : Bool :=
  ["discount", "coupon", "saving"].any
    (fun k => charsContain k.data (sLower desc).data)

/-- Python `price = price_f.value if price_f else 0.0`. -/
def itemPrice (it : RawItem) : ℚ := it.totalPrice.getD 0

/-- Python `qty = qty_f.value if qty_f else 1.0`. -/
def itemQty (it : RawItem) : ℚ := it.quantity.getD 1

/-- Python `if desc and any(k in desc.lower() for k in [...]) or price < 0`
(Python precedence: the conjunction binds tighter than the disjunction). -/
def isDiscountItem (it : RawItem) : Bool :=
  (match it.description with
   | some d => (d != "") && discountKeywordHit d
   | none => false) || decide (itemPrice it < 0)

/-- The accumulated discount over a backend item list:
`discount = 0.0; ...; discount += abs(price)` for each qualifying item. -/
def discountOf (items : List RawItem) : ℚ :=
  items.foldl (fun acc it => if isDiscountItem it then acc + |itemPrice it| else acc) 0

/-- The normalized line-item list built by the extraction loop. -/
def lineItemsOf (items : List RawItem) : List LineItem :=
  items.map (fun it => ⟨it.description, itemQty it, itemPrice it⟩)

/-- Function `extract_and_validate_receipt` on the first document and the recognized
text, covering field extraction, the vendor fallback, discount hunting and
the mathematical validation (lines 67-138 of `scan.py`). -/
def normalizeDoc (doc : RawDocument) (content : String) : NormRecord :=
  let vendorName0 : Option String := doc.vendorName.map Prod.fst
  let vendorConf0 : Conf := Conf.num ((doc.vendorName.map Prod.snd).getD 0)
  let vendorPair : Option String × Conf :=
    if pyFalsyStr vendorName0 && content != "" then
      match vendorFallback content with
      | some line => (some line, Conf.heuristic)
      | none => (vendorName0, vendorConf0)
    else (vendorName0, vendorConf0)
  let dateVal : Option String := doc.transactionDate.map Prod.fst
  let timeVal : Option String := doc.transactionTime.map Prod.fst
  let subtotal : Option ℚ := doc.subtotal.map Prod.fst
  let tax : Option ℚ := doc.totalTax.map Prod.fst
  let tip : Option ℚ := doc.tip.map Prod.fst
  let total : Option ℚ := doc.total.map Prod.fst
  let itemsList : List RawItem := doc.items.getD []
  let discount : ℚ := discountOf itemsList
  let subtotalVal : ℚ := subtotal.getD 0
  let taxVal : ℚ := tax.getD 0
  let tipVal : ℚ := tip.getD 0
  let totalVal : ℚ := total.getD 0
  let calculatedTotal : ℚ := subtotalVal - discount + taxVal + tipVal
  { items := lineItemsOf itemsList
    vendor_name := vendorPair.1
    vendor_conf := vendorPair.2
    date := pyStrOrNone dateVal
    time := pyStrOrNone timeVal
    subtotal := subtotal
    tax := tax
    tip := tip
    discount := discount
    total := total
    validation_calculated_total := round2 calculatedTotal
    validation_passed := decide (|calculatedTotal - totalVal| < 1/100) }

/-- Function `extract_and_validate_receipt` as called by the orchestrator: the empty
dictionary returned for a missing/empty result is `none`. -/
def extract : Option RawResult → Option NormRecord
  | none => none
  | some res =>
    match res.documents with
    | [] => none
    | d :: _ => some (normalizeDoc d res.content)

/-- The retry loop of `analyze_document` (`for attempt in range(MAX_RETRIES)`),
with the per-attempt outcome abstracted as `behavior : ℕ → Option RawResult`
(`some` = the backend call returns, `none` = the attempt raises). Returns the
result handed to the caller, the list of backoff sleeps performed (each
`2 ** attempt` time units), and the number of attempts made. -/
def runAttempts (behavior : ℕ → Option RawResult) : ℕ → ℕ → Option RawResult × List ℕ × ℕ
  | _, 0 => (none, [], 0)
  | attempt, fuel + 1 =>
    match behavior attempt with
    | some r => (some r, [], 1)
    | none =>
      if attempt < MAX_RETRIES - 1 then
        let rest := runAttempts behavior (attempt + 1) fuel
        (rest.1, 2 ^ attempt :: rest.2.1, rest.2.2 + 1)
      else (none, [], 1)

/-- Function `analyze_document`: if the image path does not exist, return `None`
immediately with no backend attempt and no sleep; otherwise run the retry
loop. (The filename component of the Python return value is tracked by the
orchestrator model below.) -/
def analyze_document (present : Bool) (behavior : ℕ → Option RawResult) :
    Option RawResult × List ℕ × ℕ :=
  if present then runAttempts behavior 0 MAX_RETRIES else (none, [], 0)

/-- One file as seen by the orchestrator: its (base)name, whether it exists
when `analyze_document` checks, and its per-attempt backend behavior. -/
structure FileSpec where
  name : String
  present : Bool
  behavior : ℕ → Option RawResult

/-- One element of the orchestrator's output list: the dictionary built from
`extract_and_validate_receipt` plus the `source_file` tag. `emptyRec` is the
case where the normalizer returned the empty dictionary, so the emitted
dictionary holds only `source_file`. -/
inductive OutRecord where
  | full (record : NormRecord) (source_file : String)
  | emptyRec (source_file : String)
deriving DecidableEq

/-- The fan-in of `process_receipt_path_concurrently` (lines 170-175): for
each completed future, if the raw result is truthy, normalize it, tag it with
the source file and append it; otherwise drop the file. The completion order
is unspecified in the program; the model processes the files in list order. -/
def processFiles (files : List FileSpec) : List OutRecord :=
  files.filterMap (fun f =>
    match (analyze_document f.present f.behavior).1 with
    | none => none
    | some res =>
      match extract (some res) with
      | some record => some (OutRecord.full record f.name)
      | none => some (OutRecord.emptyRec f.name))

/-- A direct child of the input directory as returned by `os.listdir`:
its name, and whether it is a regular file (as opposed to a subdirectory). -/
structure DirEntry where
  name : String
  isFile : Bool
deriving DecidableEq

/-- The input path handed to the orchestrator: a directory with its direct
children, an existing file, or a path that is neither. -/
inductive InputPath where
  | dir (entries : List DirEntry)
  | file (name : String)
  | missing

/-- Python `s.endswith(suffix)`. -/
def sEndsWith (s suffix : String) : Bool :=
  charsStartWith suffix.data.reverse s.data.reverse

/-- Python `f.lower().endswith(('.png', '.jpg', '.jpeg'))`. -/
def hasImageExt (s : String) : Bool :=
  let l := sLower s
  sEndsWith l ".png" || sEndsWith l ".jpg" || sEndsWith l ".jpeg"

/-- Input resolution (lines 152-158): a directory contributes every direct
child whose lowercased name ends in an image extension (no file-kind check in
the code), a file contributes itself, anything else reports an error
(`none`). -/
def resolveImages : InputPath → Option (List String)
  | .dir entries => some ((entries.filter (fun e => hasImageExt e.name)).map DirEntry.name)
  | .file n => some [n]
  | .missing => none

/-- Modelled from the spec (for comparison only): the image set the spec
describes for a directory input — every direct child *file* with a matching
extension. -/
def specDirImageSet (entries : List DirEntry) : List String :=
  (entries.filter (fun e => e.isFile && hasImageExt e.name)).map DirEntry.name

/-- Outcome of one orchestrator run: the collected records, whether the
error branch for an unresolvable path was taken, and how many files were
dispatched to the client. -/
structure RunOutcome where
  records : List OutRecord
  errorReported : Bool
  dispatched : ℕ
deriving DecidableEq

/-- Function `process_receipt_path_concurrently`: resolve the input path, return
`[]` with an error report when it is neither file nor directory, otherwise
dispatch every resolved image (its existence and backend behavior given by
`env`) and collect the records. -/
def process_receipt_path (inp : InputPath)
    (env : String → Bool × (ℕ → Option RawResult)) : RunOutcome :=
  match resolveImages inp with
  | none => ⟨[], true, 0⟩
  | some paths =>
    ⟨processFiles (paths.map (fun n => ⟨n, (env n).1, (env n).2⟩)), false, paths.length⟩

/-- A Python value as stored in the result dictionaries handed to the sink. -/
inductive PyVal where
  | nullV
  | strV (s : String)
  | numV (q : ℚ)
  | boolV (b : Bool)
  | itemsV (l : List LineItem)
  | dictV (entries : List (String × PyVal))

/-- Python dictionary lookup `d[k]` / `d.get(k)` on the insertion-ordered
association-list model (keys are unique by construction). -/
def dlookup : List (String × PyVal) → String → Option PyVal
  | [], _ => none
  | (k, v) :: t, key => if k = key then some v else dlookup t key

/-- Python `d.pop(k, default)`: the dictionary without the key. -/
def dremove (d : List (String × PyVal)) (key : String) : List (String × PyVal) :=
  d.filter (fun kv => kv.1 != key)

/-- Python `d[k] = v`: replace the value in place when the key exists, else append. -/
def dset : List (String × PyVal) → String × PyVal → List (String × PyVal)
  | [], kv => [kv]
  | (k, v) :: t, kv => if k = kv.1 then kv :: t else (k, v) :: dset t kv

/-- Python `d.update(e)`: set every key-value pair of `e` in order. -/
def dupdate (d e : List (String × PyVal)) : List (String × PyVal) :=
  e.foldl dset d

/-- An optional string as a Python dictionary value. -/
def optStrV : Option String → PyVal
  | none => PyVal.nullV
  | some s => PyVal.strV s

/-- An optional number as a Python dictionary value. -/
def optNumV : Option ℚ → PyVal
  | none => PyVal.nullV
  | some q => PyVal.numV q

/-- The dictionary shape of a full normalized record tagged with its source
file, in the insertion order produced by `extract_and_validate_receipt` and
the orchestrator (`items` first, `source_file` last). -/
def recordDict (r : NormRecord) (src : String) : List (String × PyVal) :=
  [("items", PyVal.itemsV r.items),
   ("vendor_name", optStrV r.vendor_name),
   ("date", optStrV r.date),
   ("time", optStrV r.time),
   ("subtotal", optNumV r.subtotal),
   ("tax", optNumV r.tax),
   ("tip", optNumV r.tip),
   ("discount", PyVal.numV r.discount),
   ("total", optNumV r.total),
   ("validation_info", PyVal.dictV
     [("calculated_total", PyVal.numV r.validation_calculated_total),
      ("validation_passed", PyVal.boolV r.validation_passed)]),
   ("source_file", PyVal.strV src)]

/-- The CSV flattening of `save_results` (lines 193-199): drop `items`, pop
`validation_info`, and merge its entries into the top level. -/
def flattenRec (d : List (String × PyVal)) : List (String × PyVal) :=
  let d1 := dremove d "items"
  let vi := match dlookup d1 "validation_info" with
    | some (PyVal.dictV e) => e
    | _ => []
  dupdate (dremove d1 "validation_info") vi

/-- The contribution of one backend item to the accumulated discount. -/
def discountContrib (it : RawItem) : ℚ :=
  if isDiscountItem it then |itemPrice it| else 0

/-- A concrete backend item qualifying for the discount under both rules. -/
def loyaltyItem : RawItem := ⟨some "Loyalty Discount", some (-5), none⟩

/-- A concrete one-item backend document with no scalar fields. -/
def loyaltyDoc : RawDocument :=
  ⟨none, none, none, none, none, none, none, some [loyaltyItem]⟩

/-- A concrete document with subtotal 10.0161 and total 10.01: the unrounded
calculated total is within the 0.01 tolerance but its rounding is not. -/
def boundaryDoc : RawDocument :=
  ⟨none, none, none, some (100161/10000, 0), none, none, some (1001/100, 0), none⟩

/-- A concrete document with subtotal 10.01 and total 10.00: the difference
is exactly the 0.01 tolerance. -/
def exactTolDoc : RawDocument :=
  ⟨none, none, none, some (1001/100, 0), none, none, some (10, 0), none⟩

/-- A concrete document with subtotal 10.009999 and total 10.00: the
difference is 0.009999, just inside the tolerance. -/
def nearTolDoc : RawDocument :=
  ⟨none, none, none, some (10009999/1000000, 0), none, none, some (10, 0), none⟩

/-- A concrete backend result that succeeds but contains no documents. -/
def emptyResult : RawResult := ⟨[], ""⟩

/-- A backend document with every field absent. -/
def noVendorDoc : RawDocument := ⟨none, none, none, none, none, none, none, none⟩

/-- A concrete successful one-document backend result. -/
def okResult : RawResult := ⟨[noVendorDoc], ""⟩

/-- A per-attempt behavior that always raises. -/
def bRaise : ℕ → Option RawResult := fun _ => none

/-- A per-attempt behavior that succeeds immediately with `okResult`. -/
def bOk : ℕ → Option RawResult := fun _ => some okResult

/-- A per-attempt behavior whose first two attempts raise and whose third
succeeds with `okResult`. -/
def bThird : ℕ → Option RawResult := fun i => if i = 2 then some okResult else none

/-- A per-attempt behavior that succeeds with the empty (document-less)
result. -/
def bEmpty : ℕ → Option RawResult := fun _ => some emptyResult

/-- The recognized text of the vendor-fallback example. -/
def joeContent : String := "RECEIPT\nThank You\nJoe\x27s Diner\n123 Main St"

/-- A direct directory child named like an image but that is a subdirectory,
not a regular file. -/
def subdirEntry : DirEntry := ⟨"sub.png", false⟩

/-- An environment in which no file exists and every attempt raises. -/
def envNone : String → Bool × (ℕ → Option RawResult) := fun _ => (false, bRaise)

lemma discount_foldl_eq (items : List RawItem) (acc : ℚ) :
    items.foldl (fun a it => if isDiscountItem it then a + |itemPrice it| else a) acc
      = acc + (items.map discountContrib).sum := by
  induction items generalizing acc with
  | nil => simp
  | cons h t ih =>
    simp only [List.foldl_cons, List.map_cons, List.sum_cons, discountContrib]
    by_cases hd : isDiscountItem h
    · rw [if_pos hd, if_pos hd, ih]
      ring
    · rw [if_neg hd, if_neg hd, ih]
      ring

lemma discountOf_eq_sum (items : List RawItem) :
    discountOf items = (items.map discountContrib).sum := by
  simpa [discountOf] using discount_foldl_eq items 0

lemma discountOf_nonneg (items : List RawItem) : 0 ≤ discountOf items := by
  rw [discountOf_eq_sum]
  apply List.sum_nonneg
  intro x hx
  obtain ⟨it, -, rfl⟩ := List.mem_map.1 hx
  unfold discountContrib
  split
  · exact abs_nonneg _
  · exact le_refl 0

/-- Claim C1: in every normalized receipt record, the stored
`validation.calculated_total` equals `round(subtotal - discount + tax + tip, 2)`
with each absent operand replaced by 0.0, `discount` being the accumulated
line-item discount stored in the record. -/
theorem calculated_total_is_rounded_sum (doc : RawDocument) (content : String) :
    (normalizeDoc doc content).validation_calculated_total =
      round2 ((normalizeDoc doc content).subtotal.getD 0
        - (normalizeDoc doc content).discount
        + (normalizeDoc doc content).tax.getD 0
        + (normalizeDoc doc content).tip.getD 0) := rfl

/-- Claim C4: over any backend item list, each item contributes `|price|` to
the accumulated discount exactly once when its description contains a discount
keyword or its price is negative, and nothing otherwise; the record's discount
field is that accumulation; an item qualifying under both rules (price -5.00,
description "Loyalty Discount") contributes 5.00 exactly once. -/
theorem discount_contribution_once (doc : RawDocument) (content : String)
    (items : List RawItem) :
    discountOf items
        = (items.map (fun it => if isDiscountItem it then |itemPrice it| else 0)).sum ∧
    (normalizeDoc doc content).discount = discountOf (doc.items.getD []) ∧
    discountOf [loyaltyItem] = 5 := by
  have hq : isDiscountItem loyaltyItem = true := by decide
  refine ⟨discountOf_eq_sum items, rfl, ?_⟩
  rw [discountOf, List.foldl_cons, List.foldl_nil, if_pos hq]
  norm_num [itemPrice, loyaltyItem]

/-- Claim C10: every record produced by the normalizer from a result with at
least one document has a nonnegative discount field. -/
theorem discount_nonneg_of_extract (ores : Option RawResult) (rec : NormRecord)
    (h : extract ores = some rec) : 0 ≤ rec.discount := by
  cases ores with
  | none => simp [extract] at h
  | some res =>
    cases hd : res.documents with
    | nil => simp [extract, hd] at h
    | cons d ds =>
      simp only [extract, hd, Option.some.injEq] at h
      subst h
      show 0 ≤ (normalizeDoc d res.content).discount
      have hrec : (normalizeDoc d res.content).discount = discountOf (d.items.getD []) := rfl
      rw [hrec]
      exact discountOf_nonneg _

/-- Witness for C10: a concrete one-document result whose extraction succeeds
and whose record has nonnegative discount. -/
theorem discount_nonneg_of_extract_witness :
    extract (some ⟨[loyaltyDoc], ""⟩) = some (normalizeDoc loyaltyDoc "") ∧
    0 ≤ (normalizeDoc loyaltyDoc "").discount :=
  ⟨rfl, discount_nonneg_of_extract (some ⟨[loyaltyDoc], ""⟩) (normalizeDoc loyaltyDoc "") rfl⟩

/-- Counterexample to C2: on a receipt with subtotal 10.0161 and total 10.01
the record passes validation (the code compares the unrounded calculated
total), yet the stored, rounded `calculated_total` (10.02) differs from the
total by exactly 0.01, so the claimed iff in terms of the stored value
fails. -/
theorem passed_vs_rounded_counterexample :
    (normalizeDoc boundaryDoc "").validation_passed = true ∧
    ¬(|(normalizeDoc boundaryDoc "").validation_calculated_total
        - (normalizeDoc boundaryDoc "").total.getD 0| < 1/100) := by
  have hfloor : ⌊(100161/10000 : ℚ) * 100⌋ = 1001 := by
    norm_num [Int.floor_eq_iff]
  constructor
  · show decide
      (|((100161/10000 : ℚ)) - discountOf [] + 0 + 0 - 1001/100| < 1/100) = true
    rw [decide_eq_true_eq]
    norm_num [discountOf, abs_of_nonneg]
  · show ¬(|round2 ((100161/10000 : ℚ) - discountOf [] + 0 + 0) - 1001/100| < 1/100)
    norm_num [discountOf, round2, roundHalfEven, hfloor, abs_of_nonneg]

/-- Claim C2 (amended): `validation.passed` is true iff the absolute
difference between the UNROUNDED calculated total (subtotal − discount + tax
+ tip, each 0.0 when absent, before rounding) and the total (0.0 when absent)
is strictly less than 0.01; a difference of exactly 0.01 yields false and one
of 0.009999 yields true. -/
theorem passed_iff_unrounded_within_tolerance (doc : RawDocument) (content : String) :
    ((normalizeDoc doc content).validation_passed = true ↔
      |((normalizeDoc doc content).subtotal.getD 0
          - (normalizeDoc doc content).discount
          + (normalizeDoc doc content).tax.getD 0
          + (normalizeDoc doc content).tip.getD 0)
        - (normalizeDoc doc content).total.getD 0| < 1/100) ∧
    (normalizeDoc exactTolDoc "").validation_passed = false ∧
    (normalizeDoc nearTolDoc "").validation_passed = true := by
  refine ⟨?_, ?_, ?_⟩
  · simp only [normalizeDoc, decide_eq_true_eq]
  · show decide (|((1001/100 : ℚ)) - discountOf [] + 0 + 0 - 10| < 1/100) = false
    rw [decide_eq_false_iff_not]
    norm_num [discountOf, abs_of_nonneg]
  · show decide
      (|((10009999/1000000 : ℚ)) - discountOf [] + 0 + 0 - 10| < 1/100) = true
    rw [decide_eq_true_eq]
    norm_num [discountOf, abs_of_nonneg]

/-- Counterexample to C3: for a file whose backend call succeeds but returns
no documents, the normalizer does return the empty record (`none`), yet the
orchestrator — which tests the raw result object, not the normalized record —
still emits a record carrying only the source file name. -/
theorem empty_extraction_emitted_counterexample :
    extract (some emptyResult) = none ∧
    processFiles [⟨"a.png", true, bEmpty⟩] = [OutRecord.emptyRec "a.png"] :=
  ⟨rfl, rfl⟩

/-- Claim C3 (amended): when the backend call succeeds but the result
contains no documents, the normalizer returns an empty record, but the
orchestrator (whose guard inspects the raw backend result, not the normalized
record) emits a record containing only `source_file` for that file instead of
dropping it. -/
theorem empty_extraction_emits_stub (name : String) (b : ℕ → Option RawResult)
    (res : RawResult) (h0 : b 0 = some res) (hd : res.documents = []) :
    extract (some res) = none ∧
    processFiles [⟨name, true, b⟩] = [OutRecord.emptyRec name] := by
  have he : extract (some res) = none := by
    simp [extract, hd]
  refine ⟨he, ?_⟩
  simp [processFiles, analyze_document, runAttempts, MAX_RETRIES, h0, he]

/-- Witness for the amended C3 at a concrete input. -/
theorem empty_extraction_emits_stub_witness :
    bEmpty 0 = some emptyResult ∧ emptyResult.documents = [] ∧
    processFiles [⟨"b.png", true, bEmpty⟩] = [OutRecord.emptyRec "b.png"] :=
  ⟨rfl, rfl, (empty_extraction_emits_stub "b.png" bEmpty emptyResult rfl rfl).2⟩

lemma find?_eq_head_of_filter (p : String → Bool) (l : List String) :
    l.find? p = (l.filter p).head? := by
  induction l with
  | nil => rfl
  | cons h t ih =>
    rw [List.find?_cons, List.filter_cons]
    rcases hp : p h
    · exact ih
    · rfl

/-- Claim C5: when the backend vendor name is falsy and recognized text is
present, the record's vendor name is the first of the first 5 non-blank
stripped lines that is neither a junk word (case-insensitively) nor shorter
than 3 characters, carried with the heuristic confidence marker; on the text
"RECEIPT\nThank You\nJoe's Diner\n123 Main St" the selected vendor is
"Joe's Diner". -/
theorem vendor_fallback_first_survivor (doc : RawDocument) (content : String)
    (hv : pyFalsyStr (doc.vendorName.map Prod.fst) = true) (hc : content ≠ "") :
    (∀ line, ((possibleLines content).filter vendorLineOk).head? = some line →
      (normalizeDoc doc content).vendor_name = some line ∧
      (normalizeDoc doc content).vendor_conf = Conf.heuristic) ∧
    (normalizeDoc noVendorDoc joeContent).vendor_name = some "Joe\x27s Diner" ∧
    (normalizeDoc noVendorDoc joeContent).vendor_conf = Conf.heuristic := by
  refine ⟨?_, by decide, by decide⟩
  intro line hline
  have hfb : vendorFallback content = some line := by
    rw [vendorFallback, find?_eq_head_of_filter, hline]
  have hcb : (content != "") = true := by
    simpa using hc
  constructor <;>
    simp [normalizeDoc, hv, hcb, hfb]

/-- Witness for C5: the concrete fallback example, with both hypotheses
discharged at the no-vendor document and the sample text. -/
theorem vendor_fallback_first_survivor_witness :
    pyFalsyStr (noVendorDoc.vendorName.map Prod.fst) = true ∧
    joeContent ≠ "" ∧
    (normalizeDoc noVendorDoc joeContent).vendor_name = some "Joe\x27s Diner" :=
  ⟨rfl, by decide,
    ((vendor_fallback_first_survivor noVendorDoc joeContent rfl (by decide)).1
      "Joe\x27s Diner" (by decide)).1⟩

/-- Claim C6: the client makes at most 3 attempts; after a failed 0-based
attempt `i < 2` it sleeps `2 ^ i`; two failures followed by a success return
the successful result after sleeps [1, 2] (total 3 time units); three
failures perform exactly the sleeps [1, 2] and return the failure marker
`none` to the caller instead of raising. -/
theorem retry_policy (b : ℕ → Option RawResult) :
    (analyze_document true b).2.2 ≤ 3 ∧
    (∀ r, b 0 = some r → analyze_document true b = (some r, [], 1)) ∧
    (∀ r, b 0 = none → b 1 = some r → analyze_document true b = (some r, [1], 2)) ∧
    (∀ r, b 0 = none → b 1 = none → b 2 = some r →
      analyze_document true b = (some r, [1, 2], 3)) ∧
    (b 0 = none → b 1 = none → b 2 = none →
      analyze_document true b = (none, [1, 2], 3)) := by
  refine ⟨?_, ?_, ?_, ?_, ?_⟩
  · rcases h0 : b 0 with - | r0
    · rcases h1 : b 1 with - | r1
      · rcases h2 : b 2 with - | r2 <;>
          simp [analyze_document, runAttempts, MAX_RETRIES, h0, h1, h2]
      · simp [analyze_document, runAttempts, MAX_RETRIES, h0, h1]
    · simp [analyze_document, runAttempts, MAX_RETRIES, h0]
  · intro r h0
    simp [analyze_document, runAttempts, MAX_RETRIES, h0]
  · intro r h0 h1
    simp [analyze_document, runAttempts, MAX_RETRIES, h0, h1]
  · intro r h0 h1 h2
    simp [analyze_document, runAttempts, MAX_RETRIES, h0, h1, h2]
  · intro h0 h1 h2
    simp [analyze_document, runAttempts, MAX_RETRIES, h0, h1, h2]

/-- Witness for C6: the behavior failing twice then succeeding, and the
behavior failing all three times. -/
theorem retry_policy_witness :
    (bThird 0 = none ∧ bThird 1 = none ∧ bThird 2 = some okResult ∧
      analyze_document true bThird = (some okResult, [1, 2], 3)) ∧
    (bRaise 0 = none ∧ bRaise 1 = none ∧ bRaise 2 = none ∧
      analyze_document true bRaise = (none, [1, 2], 3)) :=
  ⟨⟨rfl, rfl, rfl, (retry_policy bThird).2.2.2.1 okResult rfl rfl rfl⟩,
   ⟨rfl, rfl, rfl, (retry_policy bRaise).2.2.2.2 rfl rfl rfl⟩⟩

/-- Claim C7: a missing image path yields an immediate `None` with zero
backend attempts and zero sleeps, and a 2-file batch whose first file is
missing and whose second succeeds with a documented result yields exactly the
one record tagged with the successful file's name. -/
theorem notfound_dropped (n1 n2 : String) (b1 b2 : ℕ → Option RawResult)
    (res : RawResult) (d : RawDocument) (ds : List RawDocument)
    (h2 : b2 0 = some res) (hd : res.documents = d :: ds) :
    (∀ b : ℕ → Option RawResult, analyze_document false b = (none, [], 0)) ∧
    processFiles [⟨n1, false, b1⟩, ⟨n2, true, b2⟩]
      = [OutRecord.full (normalizeDoc d res.content) n2] := by
  refine ⟨fun b => rfl, ?_⟩
  simp [processFiles, analyze_document, runAttempts, MAX_RETRIES, h2, extract, hd]

/-- Witness for C7: a concrete missing file plus a concrete succeeding
file. -/
theorem notfound_dropped_witness :
    bOk 0 = some okResult ∧ okResult.documents = [noVendorDoc] ∧
    processFiles [⟨"missing.png", false, bRaise⟩, ⟨"ok.png", true, bOk⟩]
      = [OutRecord.full (normalizeDoc noVendorDoc "") "ok.png"] :=
  ⟨rfl, rfl,
    (notfound_dropped "missing.png" "ok.png" bRaise bOk okResult noVendorDoc []
      rfl rfl).2⟩

/-- Counterexample to C8: the code filters directory children by name only,
so a subdirectory named "sub.png" is included in the processed image set,
while the set of direct child *files* with an image extension is empty. -/
theorem dir_listing_ignores_kind_counterexample :
    resolveImages (InputPath.dir [subdirEntry]) = some ["sub.png"] ∧
    specDirImageSet [subdirEntry] = [] ∧
    (process_receipt_path (InputPath.dir [subdirEntry]) envNone).dispatched = 1 := by
  refine ⟨by decide, by decide, by decide⟩

/-- Claim C8 (amended): for a directory input the processed image set is the
direct child entries — regardless of whether each is a file or a
subdirectory — whose name ends case-insensitively in .png/.jpg/.jpeg; a
single-file input is processed as exactly that file regardless of extension;
a path that is neither yields zero records with an error report and no
per-file work; a directory with no matching children yields zero records
without error. -/
theorem input_resolution (entries : List DirEntry) (n : String)
    (env : String → Bool × (ℕ → Option RawResult)) :
    resolveImages (InputPath.dir entries)
        = some ((entries.filter (fun e => hasImageExt e.name)).map DirEntry.name) ∧
    (process_receipt_path (InputPath.dir entries) env).dispatched
        = (entries.filter (fun e => hasImageExt e.name)).length ∧
    (process_receipt_path (InputPath.dir entries) env).errorReported = false ∧
    process_receipt_path (InputPath.file n) env
        = ⟨processFiles [⟨n, (env n).1, (env n).2⟩], false, 1⟩ ∧
    process_receipt_path InputPath.missing env = ⟨[], true, 0⟩ ∧
    ((∀ e ∈ entries, hasImageExt e.name = false) →
      process_receipt_path (InputPath.dir entries) env = ⟨[], false, 0⟩) := by
  refine ⟨rfl, by simp [process_receipt_path, resolveImages], ?_, rfl, rfl, ?_⟩
  · simp [process_receipt_path, resolveImages]
  · intro hne
    have hfil : entries.filter (fun e => hasImageExt e.name) = [] := by
      rw [List.filter_eq_nil_iff]
      intro e he
      simp [hne e he]
    simp [process_receipt_path, resolveImages, hfil, processFiles]

/-- Witness for the amended C8: a directory whose only child is not an image
file yields zero records without error. -/
theorem input_resolution_witness :
    (∀ e ∈ [DirEntry.mk "notes.txt" true], hasImageExt e.name = false) ∧
    process_receipt_path (InputPath.dir [DirEntry.mk "notes.txt" true]) envNone
      = ⟨[], false, 0⟩ :=
  ⟨by decide,
    (input_resolution [DirEntry.mk "notes.txt" true] "x" envNone).2.2.2.2.2
      (by decide)⟩

/-- Claim C9: flattening a tagged receipt record for the tabular summary
(dropping `items`, hoisting the two validation fields) and looking every
column back up recovers each top-level scalar field and the two validation
fields unchanged, while `items` is absent from the flattened form. -/
theorem flatten_round_trip (r : NormRecord) (src : String) :
    dlookup (flattenRec (recordDict r src)) "source_file" = some (PyVal.strV src) ∧
    dlookup (flattenRec (recordDict r src)) "vendor_name" = some (optStrV r.vendor_name) ∧
    dlookup (flattenRec (recordDict r src)) "date" = some (optStrV r.date) ∧
    dlookup (flattenRec (recordDict r src)) "time" = some (optStrV r.time) ∧
    dlookup (flattenRec (recordDict r src)) "subtotal" = some (optNumV r.subtotal) ∧
    dlookup (flattenRec (recordDict r src)) "tax" = some (optNumV r.tax) ∧
    dlookup (flattenRec (recordDict r src)) "tip" = some (optNumV r.tip) ∧
    dlookup (flattenRec (recordDict r src)) "discount" = some (PyVal.numV r.discount) ∧
    dlookup (flattenRec (recordDict r src)) "total" = some (optNumV r.total) ∧
    dlookup (flattenRec (recordDict r src)) "calculated_total"
        = some (PyVal.numV r.validation_calculated_total) ∧
    dlookup (flattenRec (recordDict r src)) "validation_passed"
        = some (PyVal.boolV r.validation_passed) ∧
    dlookup (flattenRec (recordDict r src)) "items" = none :=
  ⟨rfl, rfl, rfl, rfl, rfl, rfl, rfl, rfl, rfl, rfl, rfl, rfl⟩

end ReceiptScan
